import Mathlib

/-!
Verification of the dropdown widget (repository `dropdown`).

The repository contains two variants of the same component:

* the 4-state variant (`src/src/App.tsx`): open state is the enum
  `DropdownStatus` with values CLOSED / OPEN / CLOSING / OPENING, and the
  menu position is written as inline style properties on the menu element;
* the 2-state variant (`src/unnamed/part_000`): open state is the boolean
  `isOpen`, and the menu position is React state of type
  `PositionCoordinates` whose fields are `number | null`.

Pixel coordinates are modelled as integers: the code only adds, subtracts
and compares coordinates, so integer arithmetic is an exact model of those
operations.  A JavaScript `null` (or an unset CSS property) is modelled as
`none`.  The 4-state variant writes CSS lengths as strings such as
`"530px"`; the embedding keeps the numeric value, which is the whole
content of such a string.
-/

namespace Dropdown

/-- An entry of the options list: `type Option = ( id: string; label: string )`.
Named `Opt` because `Option` is taken in Lean. -/
structure Opt where
  id : String
  label : String
deriving DecidableEq, Repr

/-- The fields of a trigger `DOMRect` that the component reads
(`getBoundingClientRect()`): `top`, `bottom`, `x`, `width`. -/
structure Rect where
  top : ℤ
  bottom : ℤ
  x : ℤ
  width : ℤ
deriving DecidableEq, Repr

/-- `PositionCoordinates` of the 2-state variant: each of `top`, `bottom`,
`left`, `width` is a number or `null`.  The same shape also models the four
inline style properties the 4-state variant writes on the menu element. -/
structure PositionCoordinates where
  top : Option ℤ
  bottom : Option ℤ
  left : Option ℤ
  width : Option ℤ
deriving DecidableEq, Repr

/-- The initial `menuPosition` state of the 2-state variant:
`useState(( top: null, left: null, width: null, bottom: null ))`.
Also the inline style of a freshly mounted menu element in the 4-state
variant, which starts with none of the four properties set. -/
def initialMenuPosition : PositionCoordinates :=
  { top := none, bottom := none, left := none, width := none }

/-- The measurements a position recompute reads from the DOM:
`dropdownRef.current` (its bounding rectangle, `none` when the trigger is
unmounted), the menu's height (`none` when the menu element is unmounted),
and `window.innerHeight`. -/
structure Env where
  dropdownRect : Option Rect
  menuHeight : Option ℤ
  windowHeight : ℤ
deriving DecidableEq, Repr

/-- `updateMenuCoordinates` of the 2-state variant.  The code:
`if (!dropdownRef.current) return;` — only the trigger ref is null-checked;
`menuHeight = menuRef.current?.offsetHeight || 0` turns an unmounted menu
(and a zero height) into `0`; then
`shouldRenderMenuUpwards = dropdownRect.bottom + menuHeight > windowHeight`
and `setMenuPosition(...)` overwrites the whole position state.
The previous position is the result when the function early-returns. -/
def updateMenuCoordinates2 (env : Env) (menuPosition : PositionCoordinates) :
    PositionCoordinates :=
  match env.dropdownRect with
  | none => menuPosition
  | some dropdownRect =>
    let menuHeight : ℤ := env.menuHeight.getD 0
    let windowHeight := env.windowHeight
    let shouldRenderMenuUpwards : Bool :=
      decide (dropdownRect.bottom + menuHeight > windowHeight)
    { top := if shouldRenderMenuUpwards then none else some dropdownRect.bottom
      bottom := if shouldRenderMenuUpwards then some (windowHeight - dropdownRect.top) else none
      left := some dropdownRect.x
      width := some dropdownRect.width }

/-- `updateMenuCoordinates` of the 4-state variant.  The code:
`if (!dropdownRef.current || !menuRef.current) return;` — both refs are
null-checked; `menuHeight = menuRef.current?.getBoundingClientRect().height || 0`;
the same upward/downward branch; the four values are written with
`style.setProperty`, where writing `null` unsets the property.
The menu element's previous inline style is the result when the function
early-returns. -/
def updateMenuCoordinates4 (env : Env) (menuStyle : PositionCoordinates) :
    PositionCoordinates :=
  match env.dropdownRect, env.menuHeight with
  | some dropdownRect, some h =>
    let menuHeight : ℤ := h
    let windowHeight := env.windowHeight
    let shouldRenderMenuUpwards : Bool :=
      decide (dropdownRect.bottom + menuHeight > windowHeight)
    { top := if shouldRenderMenuUpwards then none else some dropdownRect.bottom
      bottom := if shouldRenderMenuUpwards then some (windowHeight - dropdownRect.top) else none
      left := some dropdownRect.x
      width := some dropdownRect.width }
  | _, _ => menuStyle

/-- `enum DropdownStatus` of the 4-state variant. -/
inductive DropdownStatus where
  | CLOSED
  | OPEN
  | CLOSING
  | OPENING
deriving DecidableEq, Repr

/-- `OPEN_DROPDOWN_STATUSES = [DropdownStatus.OPEN, DropdownStatus.OPENING]`. -/
def OPEN_DROPDOWN_STATUSES : List DropdownStatus :=
  [DropdownStatus.OPEN, DropdownStatus.OPENING]

/-- `CLOSED_DROPDOWN_STATUSES = [DropdownStatus.CLOSED, DropdownStatus.CLOSING]`. -/
def CLOSED_DROPDOWN_STATUSES : List DropdownStatus :=
  [DropdownStatus.CLOSED, DropdownStatus.CLOSING]

/-- `openDropdown`: `setDropdownStatus(DropdownStatus.OPENING)`. -/
def openDropdown (_ : DropdownStatus) : DropdownStatus := DropdownStatus.OPENING

/-- `closeDropdown`: `setDropdownStatus(DropdownStatus.CLOSING)`. -/
def closeDropdown (_ : DropdownStatus) : DropdownStatus := DropdownStatus.CLOSING

/-- `onTriggerClick`: if the status is in `CLOSED_DROPDOWN_STATUSES` call
`openDropdown` and return; if it is in `OPEN_DROPDOWN_STATUSES` call
`closeDropdown` and return; otherwise fall through with no state change. -/
def onTriggerClick (dropdownStatus : DropdownStatus) : DropdownStatus :=
  if dropdownStatus ∈ CLOSED_DROPDOWN_STATUSES then
    openDropdown dropdownStatus
  else if dropdownStatus ∈ OPEN_DROPDOWN_STATUSES then
    closeDropdown dropdownStatus
  else
    dropdownStatus

/-- `onTransitionEnd`, the `animationend` handler of the 4-state variant:
two independent `if` statements against the captured status, setting
CLOSING to CLOSED and OPENING to OPEN (at most one fires, as the captured
status cannot be both). -/
def onTransitionEnd (dropdownStatus : DropdownStatus) : DropdownStatus :=
  if dropdownStatus = DropdownStatus.CLOSING then DropdownStatus.CLOSED
  else if dropdownStatus = DropdownStatus.OPENING then DropdownStatus.OPEN
  else dropdownStatus

/-- The two event sources that drive the 4-state status machine:
a click on the trigger button and an `animationend` event on the menu. -/
inductive DropdownEvent where
  | click
  | animationEnd
deriving DecidableEq, Repr

/-- The status transition function of the 4-state variant, dispatching each
event to its handler in the source. -/
def statusStep (s : DropdownStatus) (e : DropdownEvent) : DropdownStatus :=
  match e with
  | DropdownEvent.click => onTriggerClick s
  | DropdownEvent.animationEnd => onTransitionEnd s

/-- Component state of the 2-state variant: `isOpen` and `menuPosition`.
The menu is mounted exactly when `isOpen` is true
(`isOpen && <DropdownMenu ... />`). -/
structure State2 where
  isOpen : Bool
  menuPosition : PositionCoordinates
deriving DecidableEq, Repr

/-- The initial state of the 2-state variant: `useState(false)` and the
all-null position. -/
def initState2 : State2 :=
  { isOpen := false, menuPosition := initialMenuPosition }

/-- The events that drive the 2-state variant, at the granularity at which
React runs them.  `triggerClick` is the commit of
`setIsOpen(prevState => !prevState)` together with the re-render that
mounts or unmounts the menu; the position recompute of `useLayoutEffect`
is a separate later step, so the state in between — the menu freshly
mounted, the position still untouched — is a real rendered state.
`pointerDown` carries whether the event target is inside the menu and
inside the trigger; `resize` and `layoutEffect` carry the DOM
measurements the recompute reads. -/
inductive Event2 where
  | triggerClick
  | layoutEffect (env : Env)
  | pointerDown (inMenu inTrigger : Bool)
  | resize (env : Env)
deriving DecidableEq, Repr

/-- One step of the 2-state variant.
`triggerClick`: `setIsOpen(prevState => !prevState)`.
`layoutEffect`: `if (isOpen) updateMenuCoordinates()`.
`pointerDown`: the document listener — when the menu is unmounted
(`!menuRef.current`, i.e. `isOpen = false`) or the target is inside the
menu or the trigger, return; otherwise `setIsOpen(false)`.
`resize`: `updateMenuCoordinates()` unconditionally. -/
def step2 (s : State2) (e : Event2) : State2 :=
  match e with
  | Event2.triggerClick => { s with isOpen := !s.isOpen }
  | Event2.layoutEffect env =>
      if s.isOpen then
        { s with menuPosition := updateMenuCoordinates2 env s.menuPosition }
      else s
  | Event2.pointerDown inMenu inTrigger =>
      if !s.isOpen || inMenu || inTrigger then s
      else { s with isOpen := false }
  | Event2.resize env =>
      { s with menuPosition := updateMenuCoordinates2 env s.menuPosition }

/-- The state reached by the 2-state variant after a list of events,
starting from the initial state. -/
def run2 (es : List Event2) : State2 :=
  es.foldl step2 initState2

/-- Component state of the 4-state variant: the `DropdownStatus` and the
inline style written on the menu element.  The menu is mounted exactly
when the status is not CLOSED (`DropdownMenu` returns `null` on CLOSED). -/
structure State4 where
  status : DropdownStatus
  menuStyle : PositionCoordinates
deriving DecidableEq, Repr

/-- The events that drive the 4-state variant. -/
inductive Event4 where
  | click
  | animationEnd
  | layoutEffect (env : Env)
  | pointerDown (inMenu inTrigger : Bool)
  | resize (env : Env)
deriving DecidableEq, Repr

/-- One step of the 4-state variant.
`click`: `onTriggerClick`.  `animationEnd`: `onTransitionEnd` (the listener
is only attached while the menu is mounted; on CLOSED the handler is the
identity anyway).  `layoutEffect`:
`if (OPEN_DROPDOWN_STATUSES.includes(dropdownStatus)) updateMenuCoordinates()`.
`pointerDown`: the document listener — when `!menuRef.current`
(status CLOSED) or the target is inside the menu or the trigger, return;
otherwise `closeDropdown()`.  `resize`: `updateMenuCoordinates()`. -/
def step4 (s : State4) (e : Event4) : State4 :=
  match e with
  | Event4.click => { s with status := onTriggerClick s.status }
  | Event4.animationEnd => { s with status := onTransitionEnd s.status }
  | Event4.layoutEffect env =>
      if s.status ∈ OPEN_DROPDOWN_STATUSES then
        { s with menuStyle := updateMenuCoordinates4 env s.menuStyle }
      else s
  | Event4.pointerDown inMenu inTrigger =>
      if s.status = DropdownStatus.CLOSED ∨ inMenu = true ∨ inTrigger = true then s
      else { s with status := closeDropdown s.status }
  | Event4.resize env =>
      { s with menuStyle := updateMenuCoordinates4 env s.menuStyle }

/-- `options.find(( id ) => id === selectedOptionId)`: the first option
whose `id` equals `selectedOptionId` (`===` is false when
`selectedOptionId` is `null` or absent, modelled as `none`). -/
def selectedOption (options : List Opt) (selectedOptionId : Option String) :
    Option Opt :=
  options.find? (fun o => some o.id = selectedOptionId)

/-- The text the trigger button displays:
`selectedOption?.label || "Select ..."`.  JavaScript `||` falls through to
the placeholder when the left side is falsy: when there is no selected
option, and also when the selected option's label is the empty string. -/
def triggerLabel (options : List Opt) (selectedOptionId : Option String) :
    String :=
  match selectedOption options selectedOptionId with
  | none => "Select ..."
  | some o => if o.label = "" then "Select ..." else o.label

/-- One rendered `<li>` of the menu: its React `key` and the list of
`onSelect` invocations its button's `onClick` performs when activated —
the handler is `() => onSelect(( id, label ))`, a single call carrying
that option. -/
structure MenuItem where
  key : String
  onClickCalls : List Opt
deriving DecidableEq, Repr

/-- `options.map(...)` inside the menu: one item per option, whose button
invokes `onSelect` once with exactly that option's id and label. -/
def renderMenuItems (options : List Opt) : List MenuItem :=
  options.map (fun o => { key := o.id, onClickCalls := [⟨o.id, o.label⟩] })

/-- `DropdownMenu` of the 4-state variant:
`if (dropdownStatus === DropdownStatus.CLOSED) return null;` and otherwise
the portal with one item per option. -/
def DropdownMenu4 (options : List Opt) (dropdownStatus : DropdownStatus) :
    Option (List MenuItem) :=
  if dropdownStatus = DropdownStatus.CLOSED then none
  else some (renderMenuItems options)

/-- The menu as mounted by the 2-state variant's
`isOpen && <DropdownMenu ... />`: rendered exactly when `isOpen`. -/
def DropdownMenu2 (options : List Opt) (isOpen : Bool) :
    Option (List MenuItem) :=
  if isOpen then some (renderMenuItems options) else none

/-- Activating an option button in the 4-state variant while the menu is
mounted: the button's `onClick` invokes `onSelect` once with the option,
and the click event bubbles through the portal to the ancestor in the
React tree — the trigger `<button>` — whose `onClick` runs
`onTriggerClick` (React portals propagate events along the React tree
even though the portal target is `document.body`).  Result: the new
status and the list of `onSelect` invocations. -/
def selectOption4 (s : DropdownStatus) (o : Opt) :
    DropdownStatus × List Opt :=
  (onTriggerClick s, [o])

/-- Activating an option button in the 2-state variant: `onSelect` is
invoked once with the option, and the bubbled click reaches the trigger's
`onClick`, `setIsOpen(prevState => !prevState)`. -/
def selectOption2 (isOpen : Bool) (o : Opt) : Bool × List Opt :=
  (!isOpen, [o])

/-- One inline style entry of the 2-state variant's menu,
`...(v && ( v ))`: the property is included only when the value is truthy,
so `null` and the number `0` both omit it. -/
def styleEntry (v : Option ℤ) : Option ℤ :=
  match v with
  | none => none
  | some x => if x = 0 then none else some x

/-- The four positional entries of the inline `style` object the 2-state
variant renders on the menu (`position: "fixed"` aside). -/
def menuInlineStyle (p : PositionCoordinates) : PositionCoordinates :=
  { left := styleEntry p.left
    width := styleEntry p.width
    top := styleEntry p.top
    bottom := styleEntry p.bottom }

/-- The transition function described by claim C3 read literally as exact:
only the four listed transitions occur, every other state/event pair
leaves the status unchanged.  Stated from the claim's words, to be
compared with the transition function of the source. -/
def claimedStatusStep (s : DropdownStatus) (e : DropdownEvent) : DropdownStatus :=
  match s, e with
  | DropdownStatus.CLOSED, DropdownEvent.click => DropdownStatus.OPENING
  | DropdownStatus.OPENING, DropdownEvent.animationEnd => DropdownStatus.OPEN
  | DropdownStatus.OPEN, DropdownEvent.click => DropdownStatus.CLOSING
  | DropdownStatus.CLOSING, DropdownEvent.animationEnd => DropdownStatus.CLOSED
  | s', _ => s'

/-- The transition function of the amended claim C3: a click also toggles
mid-animation (CLOSING to OPENING, OPENING to CLOSING), and animationend
in CLOSED or OPEN leaves the status unchanged.  Stated from the amended
claim's words, to be compared with the transition function of the source. -/
def amendedStatusStep (s : DropdownStatus) (e : DropdownEvent) : DropdownStatus :=
  match e with
  | DropdownEvent.click =>
      if s = DropdownStatus.CLOSED ∨ s = DropdownStatus.CLOSING then
        DropdownStatus.OPENING
      else DropdownStatus.CLOSING
  | DropdownEvent.animationEnd =>
      match s with
      | DropdownStatus.OPENING => DropdownStatus.OPEN
      | DropdownStatus.CLOSING => DropdownStatus.CLOSED
      | s' => s'

/-- Exactly one of the two vertical anchors of a position is set. -/
def exactlyOneAnchor (p : PositionCoordinates) : Prop :=
  (p.top ≠ none ∧ p.bottom = none) ∨ (p.top = none ∧ p.bottom ≠ none)

/-- A stored menu position is either still the initial all-null value or
the output of the 2-state recompute for some measured environment with a
mounted trigger.  The recompute with a mounted trigger ignores the
previous position, so the initial position is a canonical argument. -/
def posInv (p : PositionCoordinates) : Prop :=
  p = initialMenuPosition ∨
    ∃ r mh W, p = updateMenuCoordinates2 ⟨some r, mh, W⟩ initialMenuPosition

theorem updateMenuCoordinates2_none (mh : Option ℤ) (W : ℤ)
    (p : PositionCoordinates) :
    updateMenuCoordinates2 ⟨none, mh, W⟩ p = p := rfl

theorem updateMenuCoordinates2_some_irrel (r : Rect) (mh : Option ℤ) (W : ℤ)
    (p q : PositionCoordinates) :
    updateMenuCoordinates2 ⟨some r, mh, W⟩ p =
      updateMenuCoordinates2 ⟨some r, mh, W⟩ q := rfl

theorem posInv_step2 (s : State2) (e : Event2) (hs : posInv s.menuPosition) :
    posInv (step2 s e).menuPosition := by
  cases e with
  | triggerClick => exact hs
  | layoutEffect env =>
      rcases env with ⟨rd, mh, W⟩
      cases hso : s.isOpen with
      | false => simpa [step2, hso] using hs
      | true =>
          cases rd with
          | none => simpa [step2, hso, updateMenuCoordinates2_none] using hs
          | some r =>
              simp only [step2, hso, if_true]
              exact Or.inr ⟨r, mh, W,
                updateMenuCoordinates2_some_irrel r mh W s.menuPosition initialMenuPosition⟩
  | pointerDown inMenu inTrigger =>
      simp only [step2]
      split
      · exact hs
      · exact hs
  | resize env =>
      rcases env with ⟨rd, mh, W⟩
      cases rd with
      | none => simpa [step2, updateMenuCoordinates2_none] using hs
      | some r =>
          exact Or.inr ⟨r, mh, W,
            updateMenuCoordinates2_some_irrel r mh W s.menuPosition initialMenuPosition⟩

theorem posInv_run2 (es : List Event2) : posInv (run2 es).menuPosition := by
  have main : ∀ (l : List Event2) (s : State2), posInv s.menuPosition →
      posInv (l.foldl step2 s).menuPosition := by
    intro l
    induction l with
    | nil => intro s hs; exact hs
    | cons e es ih => intro s hs; exact ih (step2 s e) (posInv_step2 s e hs)
  exact main es initState2 (Or.inl rfl)

theorem anchors_of_update2 (r : Rect) (mh : Option ℤ) (W : ℤ)
    (p : PositionCoordinates) :
    exactlyOneAnchor (updateMenuCoordinates2 ⟨some r, mh, W⟩ p) ∧
    (updateMenuCoordinates2 ⟨some r, mh, W⟩ p).left = some r.x ∧
    (updateMenuCoordinates2 ⟨some r, mh, W⟩ p).width = some r.width := by
  cases hb : decide (r.bottom + mh.getD 0 > W) with
  | false =>
      refine ⟨Or.inl ⟨?_, ?_⟩, ?_, ?_⟩ <;>
        simp [updateMenuCoordinates2, exactlyOneAnchor, hb]
  | true =>
      refine ⟨Or.inr ⟨?_, ?_⟩, ?_, ?_⟩ <;>
        simp [updateMenuCoordinates2, exactlyOneAnchor, hb]

theorem anchors_of_update4 (r : Rect) (h W : ℤ) (style : PositionCoordinates) :
    exactlyOneAnchor (updateMenuCoordinates4 ⟨some r, some h, W⟩ style) ∧
    (updateMenuCoordinates4 ⟨some r, some h, W⟩ style).left = some r.x ∧
    (updateMenuCoordinates4 ⟨some r, some h, W⟩ style).width = some r.width := by
  cases hb : decide (r.bottom + h > W) with
  | false =>
      refine ⟨Or.inl ⟨?_, ?_⟩, ?_, ?_⟩ <;>
        simp [updateMenuCoordinates4, exactlyOneAnchor, hb]
  | true =>
      refine ⟨Or.inr ⟨?_, ?_⟩, ?_, ?_⟩ <;>
        simp [updateMenuCoordinates4, exactlyOneAnchor, hb]

/-- Claim C1: for every position recompute with trigger rectangle r, menu
height h and window height W (both elements mounted): if
r.bottom + h ≤ W the computed position has top = r.bottom and bottom
unset, otherwise bottom = W - r.top and top unset; in both branches
left = r.x and width = r.width; and the 2-state and 4-state recomputes
agree. -/
theorem menuPosition_branches (r : Rect) (h W : ℤ)
    (pos style : PositionCoordinates) :
    updateMenuCoordinates2 ⟨some r, some h, W⟩ pos =
      updateMenuCoordinates4 ⟨some r, some h, W⟩ style ∧
    (if r.bottom + h ≤ W then
      (updateMenuCoordinates2 ⟨some r, some h, W⟩ pos).top = some r.bottom ∧
      (updateMenuCoordinates2 ⟨some r, some h, W⟩ pos).bottom = none
    else
      (updateMenuCoordinates2 ⟨some r, some h, W⟩ pos).bottom = some (W - r.top) ∧
      (updateMenuCoordinates2 ⟨some r, some h, W⟩ pos).top = none) ∧
    (updateMenuCoordinates2 ⟨some r, some h, W⟩ pos).left = some r.x ∧
    (updateMenuCoordinates2 ⟨some r, some h, W⟩ pos).width = some r.width := by
  refine ⟨rfl, ?_, ?_, ?_⟩
  · split
    next hle =>
      have hb : decide (r.bottom + h > W) = false := by
        simp only [decide_eq_false_iff_not]; omega
      constructor <;> simp [updateMenuCoordinates2, hb]
    next hgt =>
      have hb : decide (r.bottom + h > W) = true := by
        simp only [decide_eq_true_eq]; omega
      constructor <;> simp [updateMenuCoordinates2, hb]
  · exact (anchors_of_update2 r (some h) W pos).2.1
  · exact (anchors_of_update2 r (some h) W pos).2.2

/-- Claim C2, counterexample: the reachable rendered state at the moment
the menu first mounts — a trigger click has committed isOpen = true and
the menu is mounted, but the layout-effect recompute has not yet run —
still carries the initial all-null position, so neither top nor bottom is
set, refuting exactly-one-anchor at that state. -/
theorem menu_first_mount_neither_anchor :
    (run2 [Event2.triggerClick]).isOpen = true ∧
    (run2 [Event2.triggerClick]).menuPosition.top = none ∧
    (run2 [Event2.triggerClick]).menuPosition.bottom = none ∧
    (run2 [Event2.triggerClick]).menuPosition = initialMenuPosition := by
  decide

/-- Claim C2 as amended: in every reachable state of the 2-state variant
in which the menu is rendered, the stored position is either still the
initial all-null value (as at the moment the menu first mounts, before
the first layout-effect recompute) or the output of the position
recompute for some measured trigger rectangle, menu height and window
height; every recompute output — in either variant — has exactly one of
top/bottom set and left/width equal to the measured rectangle's x and
width. -/
theorem menuPosition_invariant (es : List Event2)
    (hopen : (run2 es).isOpen = true) :
    ((run2 es).menuPosition = initialMenuPosition ∨
      ∃ r mh W, (run2 es).menuPosition =
        updateMenuCoordinates2 ⟨some r, mh, W⟩ initialMenuPosition) ∧
    (∀ (r : Rect) (mh : Option ℤ) (W : ℤ) (p : PositionCoordinates),
      exactlyOneAnchor (updateMenuCoordinates2 ⟨some r, mh, W⟩ p) ∧
      (updateMenuCoordinates2 ⟨some r, mh, W⟩ p).left = some r.x ∧
      (updateMenuCoordinates2 ⟨some r, mh, W⟩ p).width = some r.width) ∧
    (∀ (r : Rect) (h W : ℤ) (style : PositionCoordinates),
      exactlyOneAnchor (updateMenuCoordinates4 ⟨some r, some h, W⟩ style) ∧
      (updateMenuCoordinates4 ⟨some r, some h, W⟩ style).left = some r.x ∧
      (updateMenuCoordinates4 ⟨some r, some h, W⟩ style).width = some r.width) := by
  refine ⟨posInv_run2 es, ?_, ?_⟩
  · intro r mh W p; exact anchors_of_update2 r mh W p
  · intro r h W style; exact anchors_of_update4 r h W style

/-- Witness for the amended claim C2, at the one-click trace whose
rendered state the counterexample exhibits. -/
theorem menuPosition_invariant_witness :
    ((run2 [Event2.triggerClick]).menuPosition = initialMenuPosition ∨
      ∃ r mh W, (run2 [Event2.triggerClick]).menuPosition =
        updateMenuCoordinates2 ⟨some r, mh, W⟩ initialMenuPosition) ∧
    (∀ (r : Rect) (mh : Option ℤ) (W : ℤ) (p : PositionCoordinates),
      exactlyOneAnchor (updateMenuCoordinates2 ⟨some r, mh, W⟩ p) ∧
      (updateMenuCoordinates2 ⟨some r, mh, W⟩ p).left = some r.x ∧
      (updateMenuCoordinates2 ⟨some r, mh, W⟩ p).width = some r.width) ∧
    (∀ (r : Rect) (h W : ℤ) (style : PositionCoordinates),
      exactlyOneAnchor (updateMenuCoordinates4 ⟨some r, some h, W⟩ style) ∧
      (updateMenuCoordinates4 ⟨some r, some h, W⟩ style).left = some r.x ∧
      (updateMenuCoordinates4 ⟨some r, some h, W⟩ style).width = some r.width) :=
  menuPosition_invariant [Event2.triggerClick] (by decide)

/-- Claim C3, counterexample: the claim reads the transition relation as
exactly the four listed transitions, under which a click in CLOSING
leaves the status CLOSING (no listed transition applies); the source's
onTriggerClick treats CLOSING as a closed status and transitions it to
OPENING. -/
theorem status_click_in_closing_transitions :
    statusStep DropdownStatus.CLOSING DropdownEvent.click =
      DropdownStatus.OPENING ∧
    claimedStatusStep DropdownStatus.CLOSING DropdownEvent.click =
      DropdownStatus.CLOSING ∧
    DropdownStatus.OPENING ≠ DropdownStatus.CLOSING := by
  decide

/-- Claim C3 as amended: the status transition function is exactly: a
click in CLOSED or CLOSING yields OPENING, a click in OPEN or OPENING
yields CLOSING, an animationend in OPENING yields OPEN, an animationend
in CLOSING yields CLOSED, and an animationend in CLOSED or OPEN leaves
the status unchanged; and two consecutive trigger clicks starting from
CLOSED, with the animation-end events in between, return the machine to
CLOSED. -/
theorem status_transition_exact_and_two_click_cycle :
    (∀ s e, statusStep s e = amendedStatusStep s e) ∧
    statusStep (statusStep (statusStep
        (statusStep DropdownStatus.CLOSED DropdownEvent.click)
        DropdownEvent.animationEnd) DropdownEvent.click)
      DropdownEvent.animationEnd = DropdownStatus.CLOSED := by
  constructor
  · intro s e
    cases s <;> cases e <;> rfl
  · rfl

/-- Claim C4: while the menu is open (4-state: status OPEN or OPENING,
hence the menu is mounted; 2-state: isOpen true), a mousedown or
touchstart whose target is in neither the trigger nor the menu closes the
dropdown (4-state: status becomes CLOSING; 2-state: isOpen becomes
false), and one whose target is inside either element leaves the whole
state unchanged. -/
theorem outside_pointer_closes_menu (s4 : State4) (s2 : State2)
    (inMenu inTrigger : Bool)
    (h4 : s4.status ∈ OPEN_DROPDOWN_STATUSES) (h2 : s2.isOpen = true) :
    (inMenu = false ∧ inTrigger = false →
      (step4 s4 (Event4.pointerDown inMenu inTrigger)).status =
        DropdownStatus.CLOSING ∧
      (step2 s2 (Event2.pointerDown inMenu inTrigger)).isOpen = false) ∧
    (inMenu = true ∨ inTrigger = true →
      step4 s4 (Event4.pointerDown inMenu inTrigger) = s4 ∧
      step2 s2 (Event2.pointerDown inMenu inTrigger) = s2) := by
  have hnc : s4.status ≠ DropdownStatus.CLOSED := by
    simp only [OPEN_DROPDOWN_STATUSES, List.mem_cons, List.mem_singleton,
      List.not_mem_nil, or_false] at h4
    rcases h4 with h | h <;> simp [h]
  constructor
  · rintro ⟨hm, ht⟩
    subst hm; subst ht
    constructor
    · simp [step4, hnc, closeDropdown]
    · simp [step2, h2]
  · intro hin
    constructor
    · rcases hin with h | h <;> subst h <;> simp [step4]
    · rcases hin with h | h <;> subst h <;> simp [step2]

/-- Witness for claim C4 at a concrete open state and an outside target,
and separately at an inside target. -/
theorem outside_pointer_closes_menu_witness :
    ((step4 ⟨DropdownStatus.OPEN, initialMenuPosition⟩
        (Event4.pointerDown false false)).status = DropdownStatus.CLOSING ∧
      (step2 ⟨true, initialMenuPosition⟩
        (Event2.pointerDown false false)).isOpen = false) ∧
    (step4 ⟨DropdownStatus.OPEN, initialMenuPosition⟩
        (Event4.pointerDown true false) =
      ⟨DropdownStatus.OPEN, initialMenuPosition⟩ ∧
      step2 ⟨true, initialMenuPosition⟩ (Event2.pointerDown true false) =
        ⟨true, initialMenuPosition⟩) :=
  ⟨(outside_pointer_closes_menu ⟨DropdownStatus.OPEN, initialMenuPosition⟩
      ⟨true, initialMenuPosition⟩ false false (by decide) (by decide)).1
      ⟨rfl, rfl⟩,
    (outside_pointer_closes_menu ⟨DropdownStatus.OPEN, initialMenuPosition⟩
      ⟨true, initialMenuPosition⟩ true false (by decide) (by decide)).2
      (Or.inl rfl)⟩

/-- Claim C5, counterexample: with the single option of id "1" and empty
label selected, the trigger displays the placeholder rather than the
selected option's (empty) label, because the JavaScript fallback
`label || "Select ..."` treats the empty string as falsy. -/
theorem empty_label_shows_placeholder :
    triggerLabel [⟨"1", ""⟩] (some "1") = "Select ..." ∧
    selectedOption [⟨"1", ""⟩] (some "1") = some ⟨"1", ""⟩ ∧
    ("Select ..." : String) ≠ "" := by
  refine ⟨rfl, rfl, ?_⟩
  decide

/-- Claim C5 as amended: if no option's id equals selectedOptionId the
trigger displays the placeholder "Select ..."; if some option matches,
the first matching option's label is displayed when it is non-empty, and
the placeholder is displayed instead when that label is the empty
string. -/
theorem trigger_label_cases (options : List Opt)
    (selectedOptionId : Option String) :
    ((∀ o ∈ options, selectedOptionId ≠ some o.id) →
      triggerLabel options selectedOptionId = "Select ...") ∧
    (∀ o, selectedOption options selectedOptionId = some o →
      (o.label ≠ "" → triggerLabel options selectedOptionId = o.label) ∧
      (o.label = "" → triggerLabel options selectedOptionId = "Select ...")) := by
  constructor
  · intro h
    have hn : selectedOption options selectedOptionId = none := by
      unfold selectedOption
      rw [List.find?_eq_none]
      intro o ho
      simpa using (h o ho).symm
    simp [triggerLabel, hn]
  · intro o ho
    constructor
    · intro hl
      simp [triggerLabel, ho, hl]
    · intro hl
      simp [triggerLabel, ho, hl]

/-- Witness for the amended claim C5: an absent id shows the placeholder,
a present id with non-empty label shows that label. -/
theorem trigger_label_cases_witness :
    triggerLabel [⟨"1", "Option 1"⟩] (some "2") = "Select ..." ∧
    triggerLabel [⟨"1", "Option 1"⟩] (some "1") = "Option 1" :=
  ⟨(trigger_label_cases [⟨"1", "Option 1"⟩] (some "2")).1 (by decide),
    ((trigger_label_cases [⟨"1", "Option 1"⟩] (some "1")).2
      ⟨"1", "Option 1"⟩ (by decide)).1 (by decide)⟩

/-- Claim C6: in every phase in which the menu is rendered (OPENING, OPEN
or CLOSING in the 4-state variant; isOpen true in the 2-state variant)
the menu consists of one item per option, and the i-th item's button
invokes the onSelect callback exactly once, with exactly the i-th
option's id and label. -/
theorem menu_items_select_once (options : List Opt)
    (status : DropdownStatus)
    (hs : status = DropdownStatus.OPENING ∨ status = DropdownStatus.OPEN ∨
      status = DropdownStatus.CLOSING) :
    ∃ items,
      DropdownMenu4 options status = some items ∧
      DropdownMenu2 options true = some items ∧
      items.length = options.length ∧
      ∀ i : ℕ, (items[i]?).map MenuItem.onClickCalls =
        (options[i]?).map (fun o => [o]) := by
  refine ⟨renderMenuItems options, ?_, rfl, ?_, ?_⟩
  · rcases hs with h | h | h <;> subst h <;> rfl
  · simp [renderMenuItems]
  · intro i
    simp only [renderMenuItems, List.getElem?_map, Option.map_map]
    rfl

/-- Witness for claim C6 at a concrete two-option list in the OPEN
phase. -/
theorem menu_items_select_once_witness :
    ∃ items,
      DropdownMenu4 [⟨"1", "Option 1"⟩, ⟨"2", "Option 2"⟩]
        DropdownStatus.OPEN = some items ∧
      DropdownMenu2 [⟨"1", "Option 1"⟩, ⟨"2", "Option 2"⟩] true =
        some items ∧
      items.length = ([⟨"1", "Option 1"⟩, ⟨"2", "Option 2"⟩] : List Opt).length ∧
      ∀ i : ℕ, (items[i]?).map MenuItem.onClickCalls =
        (([⟨"1", "Option 1"⟩, ⟨"2", "Option 2"⟩] : List Opt)[i]?).map
          (fun o => [o]) :=
  menu_items_select_once [⟨"1", "Option 1"⟩, ⟨"2", "Option 2"⟩]
    DropdownStatus.OPEN (Or.inr (Or.inl rfl))

/-- Claim C7: activating an option while the dropdown is in an open state
invokes onSelect once with that option, and — because the click bubbles
through the portal to the trigger's onClick in the React tree — the open
state transitions toward closed: the 4-state variant moves to CLOSING
(leaving the open statuses), the 2-state variant moves to isOpen =
false. -/
theorem selection_closes_dropdown (o : Opt) (s : DropdownStatus)
    (hs : s ∈ OPEN_DROPDOWN_STATUSES) :
    (selectOption4 s o).2 = [o] ∧
    (selectOption4 s o).1 = DropdownStatus.CLOSING ∧
    (selectOption4 s o).1 ∉ OPEN_DROPDOWN_STATUSES ∧
    selectOption2 true o = (false, [o]) := by
  simp only [OPEN_DROPDOWN_STATUSES, List.mem_cons, List.mem_singleton,
    List.not_mem_nil, or_false] at hs
  rcases hs with h | h <;> subst h <;>
    exact ⟨rfl, rfl,
      show DropdownStatus.CLOSING ∉ OPEN_DROPDOWN_STATUSES by decide, rfl⟩

/-- Witness for claim C7 at the OPEN status and a concrete option. -/
theorem selection_closes_dropdown_witness :
    (selectOption4 DropdownStatus.OPEN ⟨"1", "Option 1"⟩).2 =
      [⟨"1", "Option 1"⟩] ∧
    (selectOption4 DropdownStatus.OPEN ⟨"1", "Option 1"⟩).1 =
      DropdownStatus.CLOSING ∧
    (selectOption4 DropdownStatus.OPEN ⟨"1", "Option 1"⟩).1 ∉
      OPEN_DROPDOWN_STATUSES ∧
    selectOption2 true ⟨"1", "Option 1"⟩ = (false, [⟨"1", "Option 1"⟩]) :=
  selection_closes_dropdown ⟨"1", "Option 1"⟩ DropdownStatus.OPEN (by decide)

/-- Claim C8: for every state (in particular every open one) and every
window-resize event, the resize handler recomputes the menu position via
the position computation (updateMenuCoordinates of the respective
variant) and leaves the open/closed and animation-phase state unchanged,
in both variants. -/
theorem resize_preserves_open_state (s4 : State4) (s2 : State2)
    (env : Env) :
    (step4 s4 (Event4.resize env)).status = s4.status ∧
    (step4 s4 (Event4.resize env)).menuStyle =
      updateMenuCoordinates4 env s4.menuStyle ∧
    (step2 s2 (Event2.resize env)).isOpen = s2.isOpen ∧
    (step2 s2 (Event2.resize env)).menuPosition =
      updateMenuCoordinates2 env s2.menuPosition :=
  ⟨rfl, rfl, rfl, rfl⟩

/-- Claim C9, counterexample: in the 2-state variant only the trigger ref
is null-checked, so a resize while the menu is unmounted (menu height
reads as none, coerced to 0 by the `|| 0` fallback) but the trigger is
mounted overwrites the stored menu position instead of leaving it
unchanged. -/
theorem recompute_menu_unmounted_overwrites :
    (run2 [Event2.resize ⟨some ⟨10, 30, 5, 50⟩, none, 600⟩]).menuPosition ≠
      initialMenuPosition ∧
    (run2 [Event2.resize ⟨some ⟨10, 30, 5, 50⟩, none, 600⟩]).menuPosition =
      ⟨some 30, none, some 5, some 50⟩ ∧
    (run2 [Event2.resize ⟨some ⟨10, 30, 5, 50⟩, none, 600⟩]).isOpen = false := by
  decide

/-- Claim C9 as amended: the recompute never raises an error (it is a
total function); in the 4-state variant a null trigger ref or a null menu
ref makes it a no-op that leaves the stored style unchanged; in the
2-state variant only a null trigger ref does — with the trigger mounted
and the menu unmounted the recompute proceeds, reading the menu height
as 0, and overwrites the stored position. -/
theorem recompute_null_ref_cases :
    (∀ env style, env.dropdownRect = none ∨ env.menuHeight = none →
      updateMenuCoordinates4 env style = style) ∧
    (∀ env pos, env.dropdownRect = none →
      updateMenuCoordinates2 env pos = pos) ∧
    (∀ (r : Rect) (W : ℤ) (pos : PositionCoordinates),
      updateMenuCoordinates2 ⟨some r, none, W⟩ pos =
        updateMenuCoordinates2 ⟨some r, some 0, W⟩ pos) := by
  refine ⟨?_, ?_, ?_⟩
  · rintro ⟨rd, mh, W⟩ style h
    rcases h with h | h
    · subst h
      cases mh <;> rfl
    · subst h
      cases rd <;> rfl
  · rintro ⟨rd, mh, W⟩ pos h
    subst h
    rfl
  · intro r W pos
    rfl

/-- Witness for the amended claim C9 at concrete environments with a null
trigger ref and with a null menu ref. -/
theorem recompute_null_ref_cases_witness :
    updateMenuCoordinates4 ⟨none, some 40, 600⟩ initialMenuPosition =
      initialMenuPosition ∧
    updateMenuCoordinates4 ⟨some ⟨10, 30, 5, 50⟩, none, 600⟩
      initialMenuPosition = initialMenuPosition ∧
    updateMenuCoordinates2 ⟨none, some 40, 600⟩ initialMenuPosition =
      initialMenuPosition ∧
    updateMenuCoordinates2 ⟨some ⟨10, 30, 5, 50⟩, none, 600⟩
        initialMenuPosition =
      updateMenuCoordinates2 ⟨some ⟨10, 30, 5, 50⟩, some 0, 600⟩
        initialMenuPosition :=
  ⟨recompute_null_ref_cases.1 ⟨none, some 40, 600⟩ initialMenuPosition
      (Or.inl rfl),
    recompute_null_ref_cases.1 ⟨some ⟨10, 30, 5, 50⟩, none, 600⟩
      initialMenuPosition (Or.inr rfl),
    recompute_null_ref_cases.2.1 ⟨none, some 40, 600⟩ initialMenuPosition rfl,
    recompute_null_ref_cases.2.2 ⟨10, 30, 5, 50⟩ 600 initialMenuPosition⟩

theorem styleEntry_eq_none (v : Option ℤ) :
    styleEntry v = none ↔ v = none ∨ v = some 0 := by
  cases v with
  | none => simp [styleEntry]
  | some x =>
      by_cases hx : x = 0 <;> simp [styleEntry, hx]

/-- Claim C10: in the 2-state variant's popup renderer each positional
inline style property is produced by a truthiness test, so the property
is absent exactly when the stored coordinate is null or the number 0 —
in particular a trigger flush with the left viewport edge (left = 0)
renders a menu with no left style rather than left 0. -/
theorem zero_coordinate_omitted (p : PositionCoordinates) :
    ((menuInlineStyle p).left = none ↔ p.left = none ∨ p.left = some 0) ∧
    ((menuInlineStyle p).width = none ↔ p.width = none ∨ p.width = some 0) ∧
    ((menuInlineStyle p).top = none ↔ p.top = none ∨ p.top = some 0) ∧
    ((menuInlineStyle p).bottom = none ↔ p.bottom = none ∨ p.bottom = some 0) :=
  ⟨styleEntry_eq_none p.left, styleEntry_eq_none p.width,
    styleEntry_eq_none p.top, styleEntry_eq_none p.bottom⟩

end Dropdown
